import Mathlib

/-!
Verification of `src/api/x-count.js` (final revision)

A shallow embedding of the request handler in `src/api/x-count.js`
(the final revision of the file, whose circuit breaker caches a stub
on a cold-start 429 and on transport failure).  The handler is a pure
function of the query, the current time, the cache entry for that
query, and the outcome the upstream would produce; it returns the HTTP
response, the new cache entry for the query, and how many upstream
calls were made.

Modelling conventions:
* Times are epoch milliseconds as `Int` (`Date.now()`).
* ISO-8601 instants (`toISOString()`) are represented by their epoch
  milliseconds; `toISOString` is injective, so equality of the model
  fields coincides with equality of the serialized strings.
* Upstream rate-limit headers are modelled after JavaScript coercion:
  `missing` for a null/empty (falsy) header, `nan` for a present value
  whose `Number(...)` is NaN, `num v` for a parsed numeric value
  (restricted to integers).
* JSON `null`/absent fields become `Option.none`.
-/

namespace XCount

/-- The constant `FIFTEEN_MIN = 15 * 60 * 1000` (ms): freshness window and default backoff. -/
def FIFTEEN_MIN : Int := 15 * 60 * 1000

/-- The constant `BUFFER_MS = 15 * 1000` (ms): safety buffer subtracted from `now` for `end_time`. -/
def BUFFER_MS : Int := 15 * 1000

/-- Default query: `(req.query.q ?? '#21MWITHPRIVACY -is:retweet')`. -/
def defaultQuery : String := "#21MWITHPRIVACY -is:retweet"

/-- An upstream rate-limit header value after JavaScript coercion
(`hdr && !Number.isNaN(Number(hdr))`): `missing` when the header is
absent or empty (falsy), `nan` when present but unparsable, `num v`
when `Number(hdr) = v`. -/
inductive HdrVal where
  | missing
  | nan
  | num (v : Int)
deriving DecidableEq, Repr

/-- One element of the upstream JSON `data` array:
`{ start, end, tweet_count }`; `tweet_count` is `none` when missing. -/
structure UpstreamBucket where
  start : String
  end_ : String
  tweet_count : Option Nat
deriving DecidableEq, Repr

/-- One `per_hour` bucket of the served payload: `{ start, end, count }`. -/
structure PerHour where
  start : String
  end_ : String
  count : Option Nat
deriving DecidableEq, Repr

/-- The served `CountPayload`.  `total = none` is JSON `null`
("unavailable"); `note = none` means the field is absent. -/
structure CountPayload where
  query : String
  start_time : Int
  end_time : Int
  total : Option Nat
  per_hour : List PerHour
  note : Option String
deriving DecidableEq, Repr

/-- A cache entry: `{ timestamp, payload, rateLockedUntil }`;
`rateLockedUntil = none` is JSON `null`. -/
structure CacheEntry where
  timestamp : Int
  payload : CountPayload
  rateLockedUntil : Option Int
deriving DecidableEq, Repr

/-- The outcome of the single upstream `fetch`: either an HTTP response
(with its status, the two rate-limit headers, the parsed JSON `data`
array for the success path, and the body text for the error path), or
a transport-level failure (the `catch` branch). -/
inductive UpstreamOutcome where
  | response (status : Nat) (retryAfterHdr resetHdr : HdrVal)
      (data : Option (List UpstreamBucket)) (bodyText : String)
  | transportFailure (err : String)
deriving DecidableEq, Repr

/-- The JSON body of the handler's response: a `CountPayload`, or the
error object `{ error: 'X API error', status, detail }`. -/
inductive ResponseBody where
  | payload (p : CountPayload)
  | apiError (status : Nat) (detail : String)
deriving DecidableEq, Repr

/-- The handler's HTTP response: status, JSON body, and the value of
the `Retry-After` header (seconds) when that header is set. -/
structure Response where
  status : Nat
  body : ResponseBody
  retryAfter : Option Int
deriving DecidableEq, Repr

/-- Result of one invocation: the response, the cache entry stored for
the query afterwards, the number of upstream calls issued, and the
`query` parameter sent upstream (when a call was made). -/
structure ResolveResult where
  response : Response
  newEntry : Option CacheEntry
  callCount : Nat
  upstreamQuery : Option String
deriving DecidableEq, Repr

/-- JavaScript `Math.ceil(a / b)` for integers, `b > 0` (Lean's `/` on `Int`
rounds toward −∞, so negating twice gives the ceiling). -/
def ceilDiv (a b : Int) : Int := -(-a / b)

/-- JavaScript `String.prototype.trim()`: strip leading and trailing
whitespace (modelled on ASCII whitespace via `Char.isWhitespace`). -/
def jsTrim (s : String) : String :=
  ⟨((s.data.dropWhile Char.isWhitespace).reverse.dropWhile Char.isWhitespace).reverse⟩

/-- The `r.ok` check: status in [200, 300). -/
def httpOk (status : Nat) : Bool := 200 ≤ status && status < 300

/-- The lock check `entry.rateLockedUntil && now < entry.rateLockedUntil` — JavaScript
truthiness makes a `null` or `0` lock value falsy. -/
def isRateLocked (rlu : Option Int) (now : Int) : Bool :=
  match rlu with
  | none => false
  | some t => t != 0 && decide (now < t)

/-- The 429 branch's lock duration (`retryMs`), lines 263–271: prefer a
numeric `retry-after` header (seconds, floored at 5000 ms); else a
numeric `x-rate-limit-reset` header (unix seconds) when
`reset * 1000 − now` is positive (same floor); else `FIFTEEN_MIN`. -/
def lockDurationMs (retryAfterHdr resetHdr : HdrVal) (now : Int) : Int :=
  match retryAfterHdr with
  | .num v => max 5000 (v * 1000)
  | _ =>
    match resetHdr with
    | .num v =>
      let resetMs := v * 1000 - now
      if 0 < resetMs then max 5000 resetMs else FIFTEEN_MIN
    | _ => FIFTEEN_MIN

/-- The bucket mapping `(data.data ?? []).map(b => ({start, end, count: b.tweet_count}))`. -/
def toPerHour (bs : List UpstreamBucket) : List PerHour :=
  bs.map fun b => { start := b.start, end_ := b.end_, count := b.tweet_count }

/-- The total `perHour.reduce((a, b) => a + (b.count || 0), 0)`. -/
def sumCounts (ps : List PerHour) : Nat :=
  ps.foldl (fun a b => a + b.count.getD 0) 0

/-- The part of the handler after the cache check: builds the 24h
window and dispatches on the upstream outcome (lines 244–338). -/
def resolveUpstream (q : String) (now : Int) (entry : Option CacheEntry)
    (upstream : UpstreamOutcome) : ResolveResult :=
  let endMs := now - BUFFER_MS
  let startMs := endMs - 24 * 60 * 60 * 1000
  match upstream with
  | .transportFailure _ =>
    match entry with
    | some e =>
      { response := { status := 200, body := .payload e.payload, retryAfter := none },
        newEntry := entry, callCount := 1, upstreamQuery := some q }
    | none =>
      let lockUntil := now + FIFTEEN_MIN
      let stub : CountPayload :=
        { query := q, start_time := startMs, end_time := endMs, total := none,
          per_hour := [], note := some "Upstream unavailable; temporary stub cached." }
      { response :=
          { status := 200, body := .payload stub,
            retryAfter := some (ceilDiv FIFTEEN_MIN 1000) },
        newEntry := some { timestamp := now, payload := stub, rateLockedUntil := some lockUntil },
        callCount := 1, upstreamQuery := some q }
  | .response status retryAfterHdr resetHdr data bodyText =>
    if status == 429 then
      let retryMs := lockDurationMs retryAfterHdr resetHdr now
      let lockUntil := now + retryMs
      let doStub : ResolveResult :=
        let stub : CountPayload :=
          { query := q, start_time := startMs, end_time := endMs, total := none,
            per_hour := [],
            note := some "Rate-limited by X; showing no data until retry window passes." }
        { response :=
            { status := 200, body := .payload stub,
              retryAfter := some (ceilDiv retryMs 1000) },
          newEntry := some { timestamp := now, payload := stub, rateLockedUntil := some lockUntil },
          callCount := 1, upstreamQuery := some q }
      match entry with
      | some e =>
        if e.payload.total.isSome then
          { response :=
              { status := 200, body := .payload e.payload,
                retryAfter := some (ceilDiv retryMs 1000) },
            newEntry := some { e with rateLockedUntil := some lockUntil },
            callCount := 1, upstreamQuery := some q }
        else doStub
      | none => doStub
    else if !httpOk status then
      match entry with
      | some e =>
        { response := { status := 200, body := .payload e.payload, retryAfter := none },
          newEntry := entry, callCount := 1, upstreamQuery := some q }
      | none =>
        { response :=
            { status := status, body := .apiError status bodyText,
              retryAfter := none },
          newEntry := none, callCount := 1, upstreamQuery := some q }
    else
      let perHour := toPerHour (data.getD [])
      let total := sumCounts perHour
      let payload : CountPayload :=
        { query := q, start_time := startMs, end_time := endMs,
          total := some total, per_hour := perHour, note := none }
      { response := { status := 200, body := .payload payload, retryAfter := none },
        newEntry := some { timestamp := now, payload := payload, rateLockedUntil := none },
        callCount := 1, upstreamQuery := some q }

/-- The handler: normalize the query, serve the cache entry if it is
fresh or rate-locked (lines 226–242), otherwise call upstream. -/
def resolve (q? : Option String) (now : Int) (entry : Option CacheEntry)
    (upstream : UpstreamOutcome) : ResolveResult :=
  let q := jsTrim (q?.getD defaultQuery)
  match entry with
  | some e =>
    if decide (now - e.timestamp < FIFTEEN_MIN) || isRateLocked e.rateLockedUntil now then
      -- `Retry-After` is only set when under a rate lock; `getD 0` is
      -- only read when `isRateLocked` guarantees the lock is `some t`.
      { response :=
          { status := 200, body := .payload e.payload,
            retryAfter := if isRateLocked e.rateLockedUntil now then
                some (max 1 (ceilDiv (e.rateLockedUntil.getD 0 - now) 1000))
              else none },
        newEntry := entry, callCount := 0, upstreamQuery := none }
    else resolveUpstream q now entry upstream
  | none => resolveUpstream q now entry upstream

/-- Modelled from the spec: the bare "cashtag" pattern — a `$` followed
only by alphanumerics/underscore with nothing else.  No such pattern or
query rewrite exists anywhere in `src/`. -/
def isBareCashtag (s : String) : Bool :=
  match s.data with
  | '$' :: rest => !rest.isEmpty && rest.all fun c => c.isAlphanum || c == '_'
  | _ => false

/-- The cache-check condition of lines 231–242: an entry is served
without an upstream call iff it is fresh or rate-locked. -/
def servesFromCache (now : Int) : Option CacheEntry → Bool
  | none => false
  | some e => decide (now - e.timestamp < FIFTEEN_MIN) || isRateLocked e.rateLockedUntil now

/-! ## Basic lemmas about the handler's branches -/

/-- On a fresh-or-locked entry the handler short-circuits to the cache. -/
theorem resolve_hit (q? : Option String) (now : Int) (e : CacheEntry) (u : UpstreamOutcome)
    (h : (decide (now - e.timestamp < FIFTEEN_MIN) || isRateLocked e.rateLockedUntil now) = true) :
    resolve q? now (some e) u =
      { response :=
          { status := 200, body := .payload e.payload,
            retryAfter := if isRateLocked e.rateLockedUntil now then
                some (max 1 (ceilDiv (e.rateLockedUntil.getD 0 - now) 1000))
              else none },
        newEntry := some e, callCount := 0, upstreamQuery := none } := by
  simp [resolve, h]

/-- When the cache check fails, the handler goes upstream. -/
theorem resolve_miss (q? : Option String) (now : Int) (entry : Option CacheEntry)
    (u : UpstreamOutcome) (h : servesFromCache now entry = false) :
    resolve q? now entry u = resolveUpstream (jsTrim (q?.getD defaultQuery)) now entry u := by
  cases entry with
  | none => rfl
  | some e =>
    simp only [servesFromCache] at h
    simp [resolve, h]

/-- Each invocation issues at most one upstream call. -/
theorem callCount_le_one (q? : Option String) (now : Int) (entry : Option CacheEntry)
    (u : UpstreamOutcome) : (resolve q? now entry u).callCount ≤ 1 := by
  cases entry <;> cases u <;>
    simp only [resolve, resolveUpstream] <;>
    repeat first
      | split
      | simp
      | omega

/-- After an upstream call, whenever a cache entry is left behind, the
response body is exactly that entry's payload. -/
theorem resolveUpstream_body_of_newEntry (q : String) (now : Int) (entry : Option CacheEntry)
    (u : UpstreamOutcome) :
    ∀ e, (resolveUpstream q now entry u).newEntry = some e →
      (resolveUpstream q now entry u).response.body = .payload e.payload := by
  unfold resolveUpstream
  repeat' split
  all_goals intro e he
  all_goals first
    | (obtain rfl := Option.some.inj he; rfl)
    | exact (Option.noConfusion he)

/-- Whenever the handler leaves a cache entry behind, the response body
is exactly that entry's payload. -/
theorem body_eq_newEntry_payload (q? : Option String) (now : Int) (entry : Option CacheEntry)
    (u : UpstreamOutcome) (e : CacheEntry)
    (h : (resolve q? now entry u).newEntry = some e) :
    (resolve q? now entry u).response.body = .payload e.payload := by
  cases entry with
  | none =>
    rw [resolve_miss q? now none u rfl] at h ⊢
    exact resolveUpstream_body_of_newEntry _ _ _ _ e h
  | some e0 =>
    cases hc : decide (now - e0.timestamp < FIFTEEN_MIN) || isRateLocked e0.rateLockedUntil now with
    | true =>
      rw [resolve_hit q? now e0 u hc] at h ⊢
      obtain rfl := Option.some.inj h
      rfl
    | false =>
      rw [resolve_miss q? now (some e0) u hc] at h ⊢
      exact resolveUpstream_body_of_newEntry _ _ _ _ e h

/-- Every upstream-reaching branch sends exactly the normalized query. -/
theorem resolveUpstream_upstreamQuery (q : String) (now : Int) (entry : Option CacheEntry)
    (u : UpstreamOutcome) : (resolveUpstream q now entry u).upstreamQuery = some q := by
  unfold resolveUpstream
  repeat' split
  all_goals rfl

/-- The accumulated `reduce` total is the plain sum of the bucket
counts, missing counts contributing zero. -/
theorem sumCounts_eq_sum (ps : List PerHour) :
    sumCounts ps = (ps.map fun p => p.count.getD 0).sum := by
  unfold sumCounts
  rw [← List.foldl_map, List.sum_eq_foldl]

/-- The 429 lock duration is never below the 5-second floor. -/
theorem five_thousand_le_lockDurationMs (ra rs : HdrVal) (now : Int) :
    5000 ≤ lockDurationMs ra rs now := by
  cases ra <;> cases rs <;> dsimp only [lockDurationMs] <;>
    first
      | exact le_max_left _ _
      | decide
      | (split <;> first | exact le_max_left _ _ | decide)

/-- The advisory `Math.ceil(x / 1000)` is positive once `x` is at least the floor. -/
theorem ceilDiv_thousand_pos (x : Int) (h : 5000 ≤ x) : 0 < ceilDiv x 1000 := by
  unfold ceilDiv
  omega

/-! ## Claims -/

/-- C1: a cache entry that is fresh (`now − entry.timestamp <` the
15-minute window) or rate-locked is served unchanged with status 200 and
no upstream call; consequently, once a resolution has left a cache entry
behind, a second resolution of the same query within the freshness window
of that entry returns the same payload, and the two resolutions together
issue at most one upstream call. -/
theorem C1_fresh_cache_served_without_upstream
    (q? : Option String) (now : Int) (e : CacheEntry) (u : UpstreamOutcome)
    (h : now - e.timestamp < FIFTEEN_MIN ∨ isRateLocked e.rateLockedUntil now = true) :
    ((resolve q? now (some e) u).response.status = 200 ∧
      (resolve q? now (some e) u).response.body = .payload e.payload ∧
      (resolve q? now (some e) u).callCount = 0) ∧
    ∀ (r? : Option String) (t1 t2 : Int) (entry1 : Option CacheEntry)
      (u1 u2 : UpstreamOutcome) (e1 : CacheEntry),
      (resolve r? t1 entry1 u1).newEntry = some e1 →
      t2 - e1.timestamp < FIFTEEN_MIN →
      (resolve r? t2 (some e1) u2).response.body = (resolve r? t1 entry1 u1).response.body ∧
      (resolve r? t1 entry1 u1).callCount + (resolve r? t2 (some e1) u2).callCount ≤ 1 := by
  have hc : (decide (now - e.timestamp < FIFTEEN_MIN) || isRateLocked e.rateLockedUntil now)
      = true := by
    rcases h with h | h
    · simp [h]
    · simp [h]
  refine ⟨by simp [resolve_hit q? now e u hc], ?_⟩
  intro r? t1 t2 entry1 u1 u2 e1 h1 h2
  have hb := body_eq_newEntry_payload r? t1 entry1 u1 e1 h1
  have hc2 : (decide (t2 - e1.timestamp < FIFTEEN_MIN) || isRateLocked e1.rateLockedUntil t2)
      = true := by simp [h2]
  rw [resolve_hit r? t2 e1 u2 hc2, hb]
  refine ⟨rfl, ?_⟩
  have := callCount_le_one r? t1 entry1 u1
  simpa using this

/-- C2: on an upstream 429 with no cache entry, a stub payload
(`total = null`, empty `per_hour`, explanatory note) is cached under the
computed rate lock and returned with status 200 and a positive advisory
`Retry-After` value; any re-resolution before the lock expires returns
the same stub without a new upstream call. -/
theorem C2_cold_429_stub_cached_under_lock
    (q? : Option String) (now : Int) (ra rs : HdrVal)
    (d : Option (List UpstreamBucket)) (b : String) (hnow : 0 ≤ now) :
    ∃ stub : CountPayload,
      stub.total = none ∧ stub.per_hour = [] ∧
      stub.note = some "Rate-limited by X; showing no data until retry window passes." ∧
      (resolve q? now none (.response 429 ra rs d b)).response.status = 200 ∧
      (resolve q? now none (.response 429 ra rs d b)).response.body = .payload stub ∧
      (resolve q? now none (.response 429 ra rs d b)).response.retryAfter
        = some (ceilDiv (lockDurationMs ra rs now) 1000) ∧
      0 < ceilDiv (lockDurationMs ra rs now) 1000 ∧
      (resolve q? now none (.response 429 ra rs d b)).newEntry
        = some { timestamp := now, payload := stub,
                 rateLockedUntil := some (now + lockDurationMs ra rs now) } ∧
      ∀ (now2 : Int) (u2 : UpstreamOutcome), now2 < now + lockDurationMs ra rs now →
        (resolve q? now2
          (some { timestamp := now, payload := stub,
                  rateLockedUntil := some (now + lockDurationMs ra rs now) }) u2).response.body
          = .payload stub ∧
        (resolve q? now2
          (some { timestamp := now, payload := stub,
                  rateLockedUntil := some (now + lockDurationMs ra rs now) }) u2).callCount
          = 0 := by
  have h5 := five_thousand_le_lockDurationMs ra rs now
  refine ⟨{ query := jsTrim (q?.getD defaultQuery),
            start_time := now - BUFFER_MS - 24 * 60 * 60 * 1000,
            end_time := now - BUFFER_MS, total := none, per_hour := [],
            note := some "Rate-limited by X; showing no data until retry window passes." },
          rfl, rfl, rfl, rfl, rfl, rfl, ceilDiv_thousand_pos _ h5, rfl, ?_⟩
  intro now2 u2 hlt
  have hc : (decide (now2 - now < FIFTEEN_MIN) ||
      isRateLocked (some (now + lockDurationMs ra rs now)) now2) = true := by
    have : isRateLocked (some (now + lockDurationMs ra rs now)) now2 = true := by
      simp only [isRateLocked, Bool.and_eq_true, bne_iff_ne, ne_eq, decide_eq_true_eq]
      omega
    simp [this]
  rw [resolve_hit q? now2 _ u2 hc]
  exact ⟨rfl, rfl⟩

/-- Witness for C2 at concrete inputs (no headers, `now = 1000`). -/
theorem C2_witness :
    (0 : Int) ≤ 1000 ∧
    ∃ stub : CountPayload,
      stub.total = none ∧ stub.per_hour = [] ∧
      stub.note = some "Rate-limited by X; showing no data until retry window passes." ∧
      (resolve none 1000 none (.response 429 .missing .missing none "")).response.status = 200 ∧
      (resolve none 1000 none (.response 429 .missing .missing none "")).response.body
        = .payload stub ∧
      (resolve none 1000 none (.response 429 .missing .missing none "")).response.retryAfter
        = some (ceilDiv (lockDurationMs .missing .missing 1000) 1000) ∧
      0 < ceilDiv (lockDurationMs .missing .missing 1000) 1000 ∧
      (resolve none 1000 none (.response 429 .missing .missing none "")).newEntry
        = some { timestamp := 1000, payload := stub,
                 rateLockedUntil := some (1000 + lockDurationMs .missing .missing 1000) } ∧
      ∀ (now2 : Int) (u2 : UpstreamOutcome),
        now2 < 1000 + lockDurationMs .missing .missing 1000 →
        (resolve none now2
          (some { timestamp := 1000, payload := stub,
                  rateLockedUntil := some (1000 + lockDurationMs .missing .missing 1000) })
          u2).response.body
          = .payload stub ∧
        (resolve none now2
          (some { timestamp := 1000, payload := stub,
                  rateLockedUntil := some (1000 + lockDurationMs .missing .missing 1000) })
          u2).callCount = 0 :=
  ⟨by decide, C2_cold_429_stub_cached_under_lock none 1000 .missing .missing none "" (by decide)⟩

/-- C3: on an upstream 429 when a prior successful entry exists
(`payload.total` non-null) and was not already served from cache, the
prior payload is re-served byte-for-byte with status 200, and of the
entry's fields only `rateLockedUntil` is mutated (to `now` plus the lock
duration): `timestamp` and `payload` are unchanged. -/
theorem C3_429_preserves_prior_payload
    (q? : Option String) (now : Int) (e : CacheEntry) (ra rs : HdrVal)
    (d : Option (List UpstreamBucket)) (b : String)
    (hmiss : servesFromCache now (some e) = false)
    (hgood : e.payload.total.isSome = true) :
    (resolve q? now (some e) (.response 429 ra rs d b)).response.status = 200 ∧
    (resolve q? now (some e) (.response 429 ra rs d b)).response.body = .payload e.payload ∧
    (resolve q? now (some e) (.response 429 ra rs d b)).newEntry
      = some { timestamp := e.timestamp, payload := e.payload,
               rateLockedUntil := some (now + lockDurationMs ra rs now) } := by
  rw [resolve_miss _ _ _ _ hmiss]
  simp [resolveUpstream, hgood]

/-- Witness for C3: a stale entry with real data survives a 429. -/
theorem C3_witness :
    servesFromCache 1000000 (some
      { timestamp := 0,
        payload :=
          { query := "q", start_time := 0, end_time := 0, total := some 5,
            per_hour := [], note := none },
        rateLockedUntil := none }) = false ∧
    (CountPayload.total
      { query := "q", start_time := 0, end_time := 0, total := some 5,
        per_hour := [], note := none }).isSome = true ∧
    ((resolve none 1000000 (some
        { timestamp := 0,
          payload :=
            { query := "q", start_time := 0, end_time := 0, total := some 5,
              per_hour := [], note := none },
          rateLockedUntil := none })
        (.response 429 .missing .missing none "")).response.status = 200 ∧
      (resolve none 1000000 (some
        { timestamp := 0,
          payload :=
            { query := "q", start_time := 0, end_time := 0, total := some 5,
              per_hour := [], note := none },
          rateLockedUntil := none })
        (.response 429 .missing .missing none "")).response.body = .payload
          { query := "q", start_time := 0, end_time := 0, total := some 5,
            per_hour := [], note := none } ∧
      (resolve none 1000000 (some
        { timestamp := 0,
          payload :=
            { query := "q", start_time := 0, end_time := 0, total := some 5,
              per_hour := [], note := none },
          rateLockedUntil := none })
        (.response 429 .missing .missing none "")).newEntry
        = some { timestamp := 0,
                 payload :=
                   { query := "q", start_time := 0, end_time := 0, total := some 5,
                     per_hour := [], note := none },
                 rateLockedUntil :=
                   some (1000000 + lockDurationMs .missing .missing 1000000) }) :=
  ⟨by decide, by decide,
    C3_429_preserves_prior_payload none 1000000
      { timestamp := 0,
        payload :=
          { query := "q", start_time := 0, end_time := 0, total := some 5,
            per_hour := [], note := none },
        rateLockedUntil := none } .missing .missing none "" (by decide) (by decide)⟩

/-- C4: on a 429 the lock duration prefers a numeric `retry-after`
header (seconds × 1000, floored at 5000 ms); else, when positive, the
`x-rate-limit-reset` unix-time × 1000 minus `now` (same floor); else
the 15-minute default — and the stored entry's `rateLockedUntil` is
exactly `now` plus that duration. -/
theorem C4_lock_duration_derivation
    (q? : Option String) (now : Int) (entry : Option CacheEntry) (ra rs : HdrVal)
    (d : Option (List UpstreamBucket)) (b : String)
    (hmiss : servesFromCache now entry = false) :
    ((resolve q? now entry (.response 429 ra rs d b)).newEntry.map
        CacheEntry.rateLockedUntil = some (some (now + lockDurationMs ra rs now))) ∧
    (∀ v, ra = .num v → lockDurationMs ra rs now = max 5000 (v * 1000)) ∧
    ((ra = .missing ∨ ra = .nan) → ∀ w, rs = .num w →
        (0 < w * 1000 - now → lockDurationMs ra rs now = max 5000 (w * 1000 - now)) ∧
        (w * 1000 - now ≤ 0 → lockDurationMs ra rs now = FIFTEEN_MIN)) ∧
    ((ra = .missing ∨ ra = .nan) → (rs = .missing ∨ rs = .nan) →
        lockDurationMs ra rs now = FIFTEEN_MIN) := by
  refine ⟨?_, ?_, ?_, ?_⟩
  · rw [resolve_miss _ _ _ _ hmiss]
    cases entry with
    | none => rfl
    | some e =>
      cases ht : e.payload.total.isSome with
      | true => simp [resolveUpstream, ht]
      | false => simp [resolveUpstream, ht]
  · intro v hra
    subst hra
    rfl
  · intro hra w hrs
    subst hrs
    have hval : lockDurationMs ra (.num w) now
        = if 0 < w * 1000 - now then max 5000 (w * 1000 - now) else FIFTEEN_MIN := by
      rcases hra with h | h <;> subst h <;> rfl
    constructor
    · intro hpos
      rw [hval, if_pos hpos]
    · intro hle
      rw [hval, if_neg (by omega)]
  · intro hra hrs
    rcases hra with h | h <;> subst h <;> rcases hrs with h' | h' <;> subst h' <;> rfl

/-- Witness for C4 with a numeric `retry-after` header of 1 second. -/
theorem C4_witness :
    servesFromCache 1000 (none : Option CacheEntry) = false ∧
    (((resolve none 1000 none (.response 429 (.num 1) .missing none "")).newEntry.map
        CacheEntry.rateLockedUntil
        = some (some (1000 + lockDurationMs (.num 1) .missing 1000))) ∧
      (∀ v, HdrVal.num 1 = .num v →
        lockDurationMs (.num 1) .missing 1000 = max 5000 (v * 1000)) ∧
      ((HdrVal.num 1 = .missing ∨ HdrVal.num 1 = .nan) → ∀ w, HdrVal.missing = .num w →
        (0 < w * 1000 - 1000 →
          lockDurationMs (.num 1) .missing 1000 = max 5000 (w * 1000 - 1000)) ∧
        (w * 1000 - 1000 ≤ 0 → lockDurationMs (.num 1) .missing 1000 = FIFTEEN_MIN)) ∧
      ((HdrVal.num 1 = .missing ∨ HdrVal.num 1 = .nan) →
        (HdrVal.missing = .missing ∨ HdrVal.missing = .nan) →
        lockDurationMs (.num 1) .missing 1000 = FIFTEEN_MIN)) :=
  ⟨by decide,
    C4_lock_duration_derivation none 1000 none (.num 1) .missing none "" (by decide)⟩

/-- Witness for C1 at a concrete fresh entry. -/
theorem C1_witness :
    ((1000 : Int) - 0 < FIFTEEN_MIN ∨
      isRateLocked (CacheEntry.rateLockedUntil
        { timestamp := 0,
          payload :=
            { query := "q", start_time := 0, end_time := 0, total := some 1,
              per_hour := [], note := none },
          rateLockedUntil := none }) 1000 = true) ∧
    ((resolve none 1000 (some
        { timestamp := 0,
          payload :=
            { query := "q", start_time := 0, end_time := 0, total := some 1,
              per_hour := [], note := none },
          rateLockedUntil := none }) (.transportFailure "x")).response.status = 200 ∧
      (resolve none 1000 (some
        { timestamp := 0,
          payload :=
            { query := "q", start_time := 0, end_time := 0, total := some 1,
              per_hour := [], note := none },
          rateLockedUntil := none }) (.transportFailure "x")).response.body = .payload
            { query := "q", start_time := 0, end_time := 0, total := some 1,
              per_hour := [], note := none } ∧
      (resolve none 1000 (some
        { timestamp := 0,
          payload :=
            { query := "q", start_time := 0, end_time := 0, total := some 1,
              per_hour := [], note := none },
          rateLockedUntil := none }) (.transportFailure "x")).callCount = 0) :=
  ⟨Or.inl (by decide),
    (C1_fresh_cache_served_without_upstream none 1000
      { timestamp := 0,
        payload :=
          { query := "q", start_time := 0, end_time := 0, total := some 1,
            per_hour := [], note := none },
        rateLockedUntil := none } (.transportFailure "x") (Or.inl (by decide))).1⟩

/-- C5 counterexample: the bare cashtag query `$ZEN` is sent upstream
verbatim — the query parameter still matches the bare-cashtag pattern,
so no rewrite (and no retweet exclusion) happened. -/
theorem C5_counterexample_no_cashtag_rewrite :
    isBareCashtag "$ZEN" = true ∧
    (resolve (some "$ZEN") 1000 none
      (.response 200 .missing .missing (some []) "")).upstreamQuery = some "$ZEN" := by
  decide

/-- C5 amended: the query reaching the upstream call is always the
caller's query verbatim, only trimmed (with the fixed default when
absent); no cashtag rewriting of any kind occurs. -/
theorem C5_amended_query_sent_verbatim (q? : Option String) (now : Int)
    (entry : Option CacheEntry) (u : UpstreamOutcome) :
    (resolve q? now entry u).upstreamQuery = none ∨
    (resolve q? now entry u).upstreamQuery = some (jsTrim (q?.getD defaultQuery)) := by
  cases entry with
  | none =>
    rw [resolve_miss q? now none u rfl]
    exact Or.inr (resolveUpstream_upstreamQuery _ _ _ _)
  | some e =>
    cases hc : decide (now - e.timestamp < FIFTEEN_MIN) || isRateLocked e.rateLockedUntil now with
    | true =>
      rw [resolve_hit q? now e u hc]
      exact Or.inl rfl
    | false =>
      rw [resolve_miss q? now (some e) u hc]
      exact Or.inr (resolveUpstream_upstreamQuery _ _ _ _)

/-- C6 counterexample: an upstream 400 on a cashtag query with a cold
cache triggers no retry — the single upstream call's 400 is surfaced
with its error detail and no substitution note. -/
theorem C6_counterexample_no_fallback_retry :
    isBareCashtag "$ZEN" = true ∧
    (resolve (some "$ZEN") 1000 none
      (.response 400 .missing .missing none "bad operator")).callCount = 1 ∧
    (resolve (some "$ZEN") 1000 none
      (.response 400 .missing .missing none "bad operator")).response.status = 400 ∧
    (resolve (some "$ZEN") 1000 none
      (.response 400 .missing .missing none "bad operator")).response.body
      = .apiError 400 "bad operator" := by
  decide

/-- C6 amended: an upstream 400 is handled like any non-ok, non-429
status, with no retry: a prior payload is served as-is with status 200
when present, otherwise the upstream status and error detail are
returned; exactly one upstream call is made. -/
theorem C6_amended_no_retry_on_400
    (q? : Option String) (now : Int) (entry : Option CacheEntry)
    (ra rs : HdrVal) (d : Option (List UpstreamBucket)) (b : String)
    (hmiss : servesFromCache now entry = false) :
    (resolve q? now entry (.response 400 ra rs d b)).callCount = 1 ∧
    (∀ e, entry = some e →
      (resolve q? now entry (.response 400 ra rs d b)).response
        = { status := 200, body := .payload e.payload, retryAfter := none }) ∧
    (entry = none →
      (resolve q? now entry (.response 400 ra rs d b)).response
        = { status := 400, body := .apiError 400 b, retryAfter := none }) := by
  rw [resolve_miss _ _ _ _ hmiss]
  refine ⟨?_, ?_, ?_⟩
  · cases entry <;> rfl
  · intro e he
    subst he
    rfl
  · intro he
    subst he
    rfl

/-- Witness for C6's amended statement at a cold cache. -/
theorem C6_witness :
    servesFromCache 1000 (none : Option CacheEntry) = false ∧
    ((resolve none 1000 none (.response 400 .missing .missing none "oops")).callCount = 1 ∧
      (∀ e, (none : Option CacheEntry) = some e →
        (resolve none 1000 none (.response 400 .missing .missing none "oops")).response
          = { status := 200, body := .payload e.payload, retryAfter := none }) ∧
      ((none : Option CacheEntry) = none →
        (resolve none 1000 none (.response 400 .missing .missing none "oops")).response
          = { status := 400, body := .apiError 400 "oops", retryAfter := none })) :=
  ⟨by decide,
    C6_amended_no_retry_on_400 none 1000 none .missing .missing none "oops" (by decide)⟩

/-- C7: on upstream success, `per_hour` is the upstream bucket list
mapped element-wise from `{start, end, tweet_count}` to
`{start, end, count}` (order and length preserved), and `total` is the
sum of the counts with missing counts contributing zero. -/
theorem C7_success_bucket_mapping
    (q? : Option String) (now : Int) (entry : Option CacheEntry)
    (ra rs : HdrVal) (bs : List UpstreamBucket) (b : String)
    (hmiss : servesFromCache now entry = false) :
    (resolve q? now entry (.response 200 ra rs (some bs) b)).response.status = 200 ∧
    (resolve q? now entry (.response 200 ra rs (some bs) b)).response.body
      = .payload
        { query := jsTrim (q?.getD defaultQuery),
          start_time := now - BUFFER_MS - 24 * 60 * 60 * 1000,
          end_time := now - BUFFER_MS,
          total := some ((bs.map fun bu => bu.tweet_count.getD 0).sum),
          per_hour := bs.map fun bu =>
            { start := bu.start, end_ := bu.end_, count := bu.tweet_count },
          note := none } := by
  rw [resolve_miss _ _ _ _ hmiss]
  have htot : sumCounts (toPerHour ((some bs).getD []))
      = (bs.map fun bu => bu.tweet_count.getD 0).sum := by
    show sumCounts (toPerHour bs) = _
    rw [sumCounts_eq_sum]
    simp only [toPerHour, List.map_map]
    rfl
  cases entry with
  | none =>
    refine ⟨rfl, ?_⟩
    show ResponseBody.payload _ = _
    rw [htot]
    rfl
  | some e =>
    refine ⟨rfl, ?_⟩
    show ResponseBody.payload _ = _
    rw [htot]
    rfl

/-- Witness for C7: counts 3, 5, 0 give total 8; the empty bucket
sequence gives total 0. -/
theorem C7_witness :
    servesFromCache 1000 (none : Option CacheEntry) = false ∧
    ((resolve none 1000 none (.response 200 .missing .missing
        (some [{ start := "s1", end_ := "e1", tweet_count := some 3 },
               { start := "s2", end_ := "e2", tweet_count := some 5 },
               { start := "s3", end_ := "e3", tweet_count := some 0 }]) "")).response.body
      = .payload
        { query := jsTrim ((none : Option String).getD defaultQuery),
          start_time := 1000 - BUFFER_MS - 24 * 60 * 60 * 1000,
          end_time := 1000 - BUFFER_MS,
          total := some (([{ start := "s1", end_ := "e1", tweet_count := some 3 },
                           { start := "s2", end_ := "e2", tweet_count := some 5 },
                           { start := "s3", end_ := "e3", tweet_count := some 0 }
                          ] : List UpstreamBucket).map fun bu => bu.tweet_count.getD 0).sum,
          per_hour := ([{ start := "s1", end_ := "e1", tweet_count := some 3 },
                        { start := "s2", end_ := "e2", tweet_count := some 5 },
                        { start := "s3", end_ := "e3", tweet_count := some 0 }
                       ] : List UpstreamBucket).map fun bu =>
            { start := bu.start, end_ := bu.end_, count := bu.tweet_count },
          note := none }) ∧
    (([{ start := "s1", end_ := "e1", tweet_count := some 3 },
       { start := "s2", end_ := "e2", tweet_count := some 5 },
       { start := "s3", end_ := "e3", tweet_count := some 0 }
      ] : List UpstreamBucket).map fun bu => bu.tweet_count.getD 0).sum = 8 ∧
    ((resolve none 1000 none (.response 200 .missing .missing (some []) "")).response.body
      = .payload
        { query := jsTrim ((none : Option String).getD defaultQuery),
          start_time := 1000 - BUFFER_MS - 24 * 60 * 60 * 1000,
          end_time := 1000 - BUFFER_MS,
          total := some (([] : List UpstreamBucket).map fun bu => bu.tweet_count.getD 0).sum,
          per_hour := ([] : List UpstreamBucket).map fun bu =>
            { start := bu.start, end_ := bu.end_, count := bu.tweet_count },
          note := none }) ∧
    (([] : List UpstreamBucket).map fun bu => bu.tweet_count.getD 0).sum = 0 :=
  ⟨by decide,
    (C7_success_bucket_mapping none 1000 none .missing .missing
      [{ start := "s1", end_ := "e1", tweet_count := some 3 },
       { start := "s2", end_ := "e2", tweet_count := some 5 },
       { start := "s3", end_ := "e3", tweet_count := some 0 }] "" (by decide)).2,
    by decide,
    (C7_success_bucket_mapping none 1000 none .missing .missing [] "" (by decide)).2,
    by decide⟩

/-- C8: on a transport failure, a prior payload is served as-is with
status 200; with no prior entry a stub is cached under a lock of the
full freshness-window duration (well above the 5-second minimum) and
returned with status 200 — never a 500. -/
theorem C8_transport_failure_fallback
    (q? : Option String) (now : Int) (entry : Option CacheEntry) (err : String)
    (hmiss : servesFromCache now entry = false) :
    (resolve q? now entry (.transportFailure err)).response.status = 200 ∧
    (∀ e, entry = some e →
      (resolve q? now entry (.transportFailure err)).response.body = .payload e.payload ∧
      (resolve q? now entry (.transportFailure err)).newEntry = some e) ∧
    (entry = none →
      ∃ stub : CountPayload,
        (resolve q? now entry (.transportFailure err)).response.body = .payload stub ∧
        stub.total = none ∧ stub.per_hour = [] ∧
        (resolve q? now entry (.transportFailure err)).newEntry
          = some { timestamp := now, payload := stub,
                   rateLockedUntil := some (now + FIFTEEN_MIN) } ∧
        5000 ≤ FIFTEEN_MIN) := by
  rw [resolve_miss _ _ _ _ hmiss]
  refine ⟨?_, ?_, ?_⟩
  · cases entry <;> rfl
  · intro e he
    subst he
    exact ⟨rfl, rfl⟩
  · intro he
    subst he
    exact ⟨_, rfl, rfl, rfl, rfl, by decide⟩

/-- Witness for C8 at a cold cache. -/
theorem C8_witness :
    servesFromCache 1000 (none : Option CacheEntry) = false ∧
    ((resolve none 1000 none (.transportFailure "boom")).response.status = 200 ∧
      (∀ e, (none : Option CacheEntry) = some e →
        (resolve none 1000 none (.transportFailure "boom")).response.body = .payload e.payload ∧
        (resolve none 1000 none (.transportFailure "boom")).newEntry = some e) ∧
      ((none : Option CacheEntry) = none →
        ∃ stub : CountPayload,
          (resolve none 1000 none (.transportFailure "boom")).response.body = .payload stub ∧
          stub.total = none ∧ stub.per_hour = [] ∧
          (resolve none 1000 none (.transportFailure "boom")).newEntry
            = some { timestamp := 1000, payload := stub,
                     rateLockedUntil := some (1000 + FIFTEEN_MIN) } ∧
          5000 ≤ FIFTEEN_MIN)) :=
  ⟨by decide, C8_transport_failure_fallback none 1000 none "boom" (by decide)⟩

/-- C9: a successful upstream response with no `data` array still
succeeds: status 200, empty `per_hour`, `total = 0`, and that payload
is cached. -/
theorem C9_missing_data_yields_empty
    (q? : Option String) (now : Int) (entry : Option CacheEntry)
    (ra rs : HdrVal) (b : String) (status : Nat)
    (hmiss : servesFromCache now entry = false) (hok : httpOk status = true) :
    (resolve q? now entry (.response status ra rs none b)).response.status = 200 ∧
    ∃ p : CountPayload,
      (resolve q? now entry (.response status ra rs none b)).response.body = .payload p ∧
      p.per_hour = [] ∧ p.total = some 0 ∧
      (resolve q? now entry (.response status ra rs none b)).newEntry
        = some { timestamp := now, payload := p, rateLockedUntil := none } := by
  rw [resolve_miss _ _ _ _ hmiss]
  have hlt : 200 ≤ status ∧ status < 300 := by
    simpa [httpOk] using hok
  have h429 : ¬ ((status == 429) = true) := by
    simp only [beq_iff_eq]
    omega
  have hok' : ¬ ((!httpOk status) = true) := by
    simp [hok]
  have hval : resolveUpstream (jsTrim (q?.getD defaultQuery)) now entry
        (.response status ra rs none b)
      = { response :=
            { status := 200,
              body := .payload
                { query := jsTrim (q?.getD defaultQuery),
                  start_time := now - BUFFER_MS - 24 * 60 * 60 * 1000,
                  end_time := now - BUFFER_MS, total := some 0, per_hour := [],
                  note := none },
              retryAfter := none },
          newEntry := some
            { timestamp := now,
              payload :=
                { query := jsTrim (q?.getD defaultQuery),
                  start_time := now - BUFFER_MS - 24 * 60 * 60 * 1000,
                  end_time := now - BUFFER_MS, total := some 0, per_hour := [],
                  note := none },
              rateLockedUntil := none },
          callCount := 1, upstreamQuery := some (jsTrim (q?.getD defaultQuery)) } := by
    simp only [resolveUpstream, if_neg h429, if_neg hok']
    rfl
  rw [hval]
  exact ⟨rfl, _, rfl, rfl, rfl, rfl⟩

/-- Witness for C9 with upstream status 200 and absent `data`. -/
theorem C9_witness :
    servesFromCache 1000 (none : Option CacheEntry) = false ∧
    httpOk 200 = true ∧
    ((resolve none 1000 none (.response 200 .missing .missing none "")).response.status = 200 ∧
      ∃ p : CountPayload,
        (resolve none 1000 none (.response 200 .missing .missing none "")).response.body
          = .payload p ∧
        p.per_hour = [] ∧ p.total = some 0 ∧
        (resolve none 1000 none (.response 200 .missing .missing none "")).newEntry
          = some { timestamp := 1000, payload := p, rateLockedUntil := none }) :=
  ⟨by decide, by decide,
    C9_missing_data_yields_empty none 1000 none .missing .missing "" 200 (by decide) (by decide)⟩

/-- C10: a stub cached on a cold-start 429 or transport failure carries
`timestamp = now`, so any re-resolution within the 15-minute freshness
window of that timestamp — or under the rate lock, whichever reaches
further — re-serves the stub with no upstream call. -/
theorem C10_stub_fresh_window_suppresses_upstream
    (q? : Option String) (now : Int) (u : UpstreamOutcome)
    (h : (∃ err, u = .transportFailure err) ∨
        ∃ ra rs d b, u = .response 429 ra rs d b) :
    ∃ e : CacheEntry, (resolve q? now none u).newEntry = some e ∧
      e.timestamp = now ∧ e.payload.total = none ∧
      ∀ (now2 : Int) (u2 : UpstreamOutcome),
        now2 - now < FIFTEEN_MIN ∨ isRateLocked e.rateLockedUntil now2 = true →
        (resolve q? now2 (some e) u2).response.body = .payload e.payload ∧
        (resolve q? now2 (some e) u2).callCount = 0 := by
  have key : ∀ e : CacheEntry, e.timestamp = now → ∀ (now2 : Int) (u2 : UpstreamOutcome),
      now2 - now < FIFTEEN_MIN ∨ isRateLocked e.rateLockedUntil now2 = true →
      (resolve q? now2 (some e) u2).response.body = .payload e.payload ∧
      (resolve q? now2 (some e) u2).callCount = 0 := by
    intro e het now2 u2 h2
    have hc : (decide (now2 - e.timestamp < FIFTEEN_MIN) ||
        isRateLocked e.rateLockedUntil now2) = true := by
      rcases h2 with h2 | h2
      · simp [het, h2]
      · simp [h2]
    rw [resolve_hit _ _ _ _ hc]
    exact ⟨rfl, rfl⟩
  rcases h with ⟨err, rfl⟩ | ⟨ra, rs, d, b, rfl⟩
  · refine ⟨_, rfl, rfl, rfl, ?_⟩
    exact key _ rfl
  · refine ⟨_, rfl, rfl, rfl, ?_⟩
    exact key _ rfl

/-- Witness for C10 on a concrete cold transport failure. -/
theorem C10_witness :
    ((∃ err, UpstreamOutcome.transportFailure "boom" = .transportFailure err) ∨
      ∃ ra rs d b, UpstreamOutcome.transportFailure "boom" = .response 429 ra rs d b) ∧
    ∃ e : CacheEntry,
      (resolve none 1000 none (.transportFailure "boom")).newEntry = some e ∧
      e.timestamp = 1000 ∧ e.payload.total = none ∧
      ∀ (now2 : Int) (u2 : UpstreamOutcome),
        now2 - 1000 < FIFTEEN_MIN ∨ isRateLocked e.rateLockedUntil now2 = true →
        (resolve none now2 (some e) u2).response.body = .payload e.payload ∧
        (resolve none now2 (some e) u2).callCount = 0 :=
  ⟨Or.inl ⟨"boom", rfl⟩,
    C10_stub_fresh_window_suppresses_upstream none 1000 (.transportFailure "boom")
      (Or.inl ⟨"boom", rfl⟩)⟩

end XCount
